import Mathlib

/-!
Verification development for the link-ai chat backend.

The definitions below are a shallow embedding of the TypeScript sources:

* the chat service (`sendMessage`, `getChatHistory`, the zod schema
  `sendMessageSchema`, the streaming chunk loop and the non-streaming
  branch, the upstream-failure compensation and the finalization
  transaction);
* the auth service (`login`) together with the jwt configuration;
* the tiktoken wrapper (`countTokens` with its lazily built encoder cache).

Conventions of the embedding:

* JavaScript strings are modelled by Lean `String` (a list of characters;
  `.length` counts characters where JavaScript counts UTF-16 units — the
  two agree on all inputs used in witnesses here);
* database rows are records, the database is lists of rows plus a fresh-id
  counter `nextId` and a logical clock `clock`; rows are appended in
  creation order, so a list of messages is already sorted by `createdAt`
  ascending and the Prisma query `orderBy createdAt desc` is `List.reverse`;
* the upstream OpenAI client is a parameter: the chunk list a streamed
  call would yield (plus an optional error terminating the stream), or the
  completion a single-shot call would yield;
* the side-channel callback `onChunk` is modelled by accumulating the
  events that would be delivered to it, in order, into a list;
* fallible steps return `Except`, and each service function returns the
  database it leaves behind next to its result.
-/

namespace LinkAI

/-- Token usage triple, as in the `AIResponse.usage` object of the chat
service (`promptTokens`, `completionTokens`, `totalTokens`). -/
structure Usage where
  promptTokens : Nat
  completionTokens : Nat
  totalTokens : Nat
deriving DecidableEq, Repr

/-- The zero usage object `sendMessage` starts from. -/
def Usage.zero : Usage := ⟨0, 0, 0⟩

/-- The `StreamEvent` union of the chat service: a content delta, the
terminal done marker, or an error event. -/
inductive StreamEvent where
  | content (content : String)
  | done
  | error (message : String)
deriving DecidableEq, Repr

/-- The fields of `chunk.choices[0]` that the streaming loop reads:
`delta.content` and `delta.reasoning_content` (both possibly absent). -/
structure ChunkChoice where
  deltaContent : Option String
  deltaReasoning : Option String
deriving DecidableEq, Repr

/-- One upstream streaming chunk, restricted to the data the loop
consumes: `choices[0]` (absent when `choices` is empty) and the optional
cumulative `usage` object. -/
structure Chunk where
  firstChoice : Option ChunkChoice
  usage : Option Usage
deriving DecidableEq, Repr

/-- Errors raised by the upstream client: an `OpenAI.APIError` with an
optional HTTP status, or any other thrown value. -/
inductive UpstreamErr where
  | apiError (status : Option Nat) (message : String)
  | generic (message : String)
deriving DecidableEq, Repr

/-- What one streamed upstream call yields: the chunks delivered before
the iterator finished, and an optional error that terminated it early. -/
structure StreamOutcome where
  chunks : List Chunk
  err : Option UpstreamErr
deriving DecidableEq, Repr

/-- The message object of a non-streaming completion: `content` and
`reasoning_content`, both possibly absent. -/
structure CompletionMessage where
  content : Option String
  reasoning : Option String
deriving DecidableEq, Repr

/-- A non-streaming completion, restricted to the data the branch reads:
`choices[0]?.message` and the optional `usage` object. -/
structure Completion where
  choices : List CompletionMessage
  usage : Option Usage
deriving DecidableEq, Repr

/-- The mutable accumulator of the upstream-call section of `sendMessage`:
`fullContent`, `reasoning`, `usage`, plus the events handed to `onChunk`
so far (in delivery order). -/
structure StreamAcc where
  fullContent : String
  reasoning : Option String
  usage : Usage
  events : List StreamEvent
deriving DecidableEq, Repr

/-- Initial accumulator: empty reply, no reasoning, zero usage, no events. -/
def initAcc : StreamAcc := ⟨"", none, Usage.zero, []⟩

/-- The `deltaContent` handling of the loop body: `choice.delta?.content
?? ''`, appended and forwarded only when non-empty (JS truthiness). -/
def stepContent (hasCb : Bool) (acc : StreamAcc) (choice : ChunkChoice) : StreamAcc :=
  let d := choice.deltaContent.getD ""
  if d = "" then acc
  else ⟨acc.fullContent ++ d, acc.reasoning, acc.usage,
        acc.events ++ (if hasCb then [StreamEvent.content d] else [])⟩

/-- The `reasoning_content` handling of the loop body: accumulated into
`reasoning` only when non-empty (JS truthiness of `?? null`). -/
def stepReasoning (acc : StreamAcc) (choice : ChunkChoice) : StreamAcc :=
  match choice.deltaReasoning with
  | some r => if r = "" then acc
              else ⟨acc.fullContent, some (acc.reasoning.getD "" ++ r), acc.usage, acc.events⟩
  | none => acc

/-- The `if (chunk.usage)` handling of the loop body: last write wins. -/
def stepUsage (acc : StreamAcc) (c : Chunk) : StreamAcc :=
  match c.usage with
  | some u => ⟨acc.fullContent, acc.reasoning, u, acc.events⟩
  | none => acc

/-- One iteration of `for await (const chunk of stream)`: when
`chunk.choices[0]` is absent the body does `continue`, skipping content,
reasoning and usage handling alike. -/
def processChunk (hasCb : Bool) (acc : StreamAcc) (c : Chunk) : StreamAcc :=
  match c.firstChoice with
  | none => acc
  | some choice => stepUsage (stepReasoning (stepContent hasCb acc choice) choice) c

/-- The whole streaming branch of `sendMessage`: fold the loop body over
the delivered chunks; on normal exhaustion emit the terminal done event,
on an error leave the accumulator as the error handler sees it. -/
def runStream (hasCb : Bool) (o : StreamOutcome) : StreamAcc × Option UpstreamErr :=
  let acc := o.chunks.foldl (processChunk hasCb) initAcc
  match o.err with
  | some e => (acc, some e)
  | none =>
      (⟨acc.fullContent, acc.reasoning, acc.usage,
        acc.events ++ (if hasCb then [StreamEvent.done] else [])⟩, none)

/-- The non-streaming branch of `sendMessage`: read
`completion.choices[0]?.message`, the optional usage, and synthesize the
one-shot events only when a callback is present and the reply is
non-empty (JS truthiness of `onChunk && fullContent`). -/
def runNonStream (hasCb : Bool) (o : Except UpstreamErr Completion) :
    StreamAcc × Option UpstreamErr :=
  match o with
  | .error e => (initAcc, some e)
  | .ok comp =>
      let fullContent :=
        match comp.choices.head? with
        | some m => m.content.getD ""
        | none => ""
      let reasoning :=
        match comp.choices.head? with
        | some m => m.reasoning
        | none => none
      let usage := comp.usage.getD Usage.zero
      let events :=
        if hasCb ∧ fullContent ≠ "" then
          [StreamEvent.content fullContent, StreamEvent.done]
        else []
      (⟨fullContent, reasoning, usage, events⟩, none)

/-- The non-empty content delta a chunk contributes, if any: `none` when
the chunk has no first choice or its delta is empty. -/
def contentDeltaOf (c : Chunk) : Option String :=
  match c.firstChoice with
  | none => none
  | some ch =>
      let d := ch.deltaContent.getD ""
      if d = "" then none else some d

/-- The non-empty content deltas of a chunk sequence, in arrival order. -/
def contentDeltas (cs : List Chunk) : List String :=
  cs.filterMap contentDeltaOf

/-- The usage object the loop actually reads off a chunk: present only
when the chunk also has a first choice (otherwise the body `continue`s). -/
def pickUsage (c : Chunk) : Option Usage :=
  match c.firstChoice with
  | none => none
  | some _ => c.usage

/-- The value produced by the last chunk (in arrival order) on which `f`
fires, if any. -/
def lastReport (f : Chunk → Option Usage) : List Chunk → Option Usage
  | [] => none
  | c :: cs =>
      match lastReport f cs with
      | some u => some u
      | none => f c

/-- Concatenation of a list of strings, in order. -/
def concatAll : List String → String
  | [] => ""
  | s :: l => s ++ concatAll l

theorem str_append_empty (s : String) : s ++ "" = s := String.append_empty s

theorem concatAll_append (l₁ l₂ : List String) :
    concatAll (l₁ ++ l₂) = concatAll l₁ ++ concatAll l₂ := by
  induction l₁ with
  | nil => simp [concatAll]
  | cons s l ih => simp [concatAll, ih, String.append_assoc]

theorem stepContent_spec (hasCb : Bool) (acc : StreamAcc) (ch : ChunkChoice) :
    (stepContent hasCb acc ch).fullContent
        = acc.fullContent ++ concatAll (contentDeltaOf ⟨some ch, none⟩).toList
  ∧ (stepContent hasCb acc ch).events
        = acc.events ++
            (if hasCb then (contentDeltaOf ⟨some ch, none⟩).toList.map StreamEvent.content
             else [])
  ∧ (stepContent hasCb acc ch).usage = acc.usage := by
  by_cases hd : ch.deltaContent.getD "" = "" <;>
    simp [stepContent, contentDeltaOf, hd, concatAll, str_append_empty]

theorem stepReasoning_frame (acc : StreamAcc) (ch : ChunkChoice) :
    (stepReasoning acc ch).fullContent = acc.fullContent
  ∧ (stepReasoning acc ch).events = acc.events
  ∧ (stepReasoning acc ch).usage = acc.usage := by
  cases h : ch.deltaReasoning with
  | none => simp [stepReasoning, h]
  | some r => by_cases hr : r = "" <;> simp [stepReasoning, h, hr]

theorem stepUsage_spec (acc : StreamAcc) (c : Chunk) :
    (stepUsage acc c).fullContent = acc.fullContent
  ∧ (stepUsage acc c).events = acc.events
  ∧ (stepUsage acc c).usage = (c.usage).getD acc.usage := by
  cases h : c.usage <;> simp [stepUsage, h]

theorem processChunk_spec (hasCb : Bool) (acc : StreamAcc) (c : Chunk) :
    (processChunk hasCb acc c).fullContent
        = acc.fullContent ++ concatAll (contentDeltaOf c).toList
  ∧ (processChunk hasCb acc c).events
        = acc.events ++
            (if hasCb then (contentDeltaOf c).toList.map StreamEvent.content else [])
  ∧ (processChunk hasCb acc c).usage = (pickUsage c).getD acc.usage := by
  cases hc : c.firstChoice with
  | none =>
      simp [processChunk, hc, contentDeltaOf, pickUsage, concatAll, str_append_empty]
  | some ch =>
      obtain ⟨u1, u2, u3⟩ := stepUsage_spec (stepReasoning (stepContent hasCb acc ch) ch) c
      obtain ⟨r1, r2, r3⟩ := stepReasoning_frame (stepContent hasCb acc ch) ch
      obtain ⟨c1, c2, c3⟩ := stepContent_spec hasCb acc ch
      have hdelta : contentDeltaOf c = contentDeltaOf ⟨some ch, none⟩ := by
        simp [contentDeltaOf, hc]
      have hpick : pickUsage c = c.usage := by simp [pickUsage, hc]
      refine ⟨?_, ?_, ?_⟩
      · simp [processChunk, hc, u1, r1, c1, hdelta]
      · simp [processChunk, hc, u2, r2, c2, hdelta]
      · simp [processChunk, hc, u3, r3, c3, hpick]

theorem streamFold_spec (hasCb : Bool) (cs : List Chunk) (acc : StreamAcc) :
    (cs.foldl (processChunk hasCb) acc).fullContent
        = acc.fullContent ++ concatAll (contentDeltas cs)
  ∧ (cs.foldl (processChunk hasCb) acc).events
        = acc.events ++
            (if hasCb then (contentDeltas cs).map StreamEvent.content else [])
  ∧ (cs.foldl (processChunk hasCb) acc).usage
        = (lastReport pickUsage cs).getD acc.usage := by
  induction cs generalizing acc with
  | nil => simp [contentDeltas, lastReport, concatAll, str_append_empty]
  | cons c cs ih =>
      obtain ⟨p1, p2, p3⟩ := processChunk_spec hasCb acc c
      obtain ⟨i1, i2, i3⟩ := ih (processChunk hasCb acc c)
      have hdeltas : contentDeltas (c :: cs)
          = (contentDeltaOf c).toList ++ contentDeltas cs := by
        cases h : contentDeltaOf c <;>
          simp [contentDeltas, List.filterMap_cons, h]
      refine ⟨?_, ?_, ?_⟩
      · simp only [List.foldl_cons, i1, p1, hdeltas, concatAll_append,
          String.append_assoc]
      · simp only [List.foldl_cons, i2, p2, hdeltas, List.map_append]
        cases hasCb <;> simp
      · simp only [List.foldl_cons, i3, p3]
        show _ = (lastReport pickUsage (c :: cs)).getD acc.usage
        cases h : lastReport pickUsage cs with
        | some u => simp [lastReport, h]
        | none => simp [lastReport, h]

/-- C1 (counterexample): the claim "the usage triple in the result equals
the usage reported in the last chunk that carried usage" is false. The
loop does `const choice = chunk.choices[0]; if (!choice) continue` before
it reads `chunk.usage`, so a chunk that carries usage but has an empty
`choices` array is skipped entirely. On the two-chunk stream below the
last (and only) chunk carrying usage reports `(1, 2, 3)`, yet the
accumulated usage stays `(0, 0, 0)`. -/
theorem C1_counterexample :
    (runStream true
        ⟨[⟨some ⟨some "hi", none⟩, none⟩, ⟨none, some ⟨1, 2, 3⟩⟩], none⟩).1.usage
      = ⟨0, 0, 0⟩
  ∧ lastReport Chunk.usage
        [⟨some ⟨some "hi", none⟩, none⟩, ⟨none, some ⟨1, 2, 3⟩⟩]
      = some ⟨1, 2, 3⟩
  ∧ (⟨0, 0, 0⟩ : Usage) ≠ ⟨1, 2, 3⟩ := by decide

/-- C1 (amended): in streaming mode, for every finite chunk sequence the
final content is the concatenation of all non-empty content deltas in
arrival order; each such delta is forwarded to the side-channel exactly
once, in arrival order, followed by a single terminal done event; and the
usage triple equals the usage reported in the last chunk that both
carried usage and had at least one choice (chunks with an empty `choices`
array are skipped entirely, usage included), defaulting to zero when no
such chunk exists. `sendMessage` returns this accumulated content
verbatim as `AIResponse.content`. -/
theorem C1_amended (cs : List Chunk) :
    (runStream true ⟨cs, none⟩).1.fullContent = concatAll (contentDeltas cs)
  ∧ (runStream true ⟨cs, none⟩).1.events
      = (contentDeltas cs).map StreamEvent.content ++ [StreamEvent.done]
  ∧ (runStream true ⟨cs, none⟩).1.usage
      = (lastReport pickUsage cs).getD Usage.zero
  ∧ (runStream true ⟨cs, none⟩).2 = none := by
  obtain ⟨h1, h2, h3⟩ := streamFold_spec true cs initAcc
  simp [initAcc, String.empty_append] at h1 h2 h3
  refine ⟨?_, ?_, ?_, ?_⟩ <;>
    simp [runStream, h1, h2, h3, initAcc]

/-! ## Chat service data model -/

/-- Message roles as stored by Prisma (`SYSTEM | USER | ASSISTANT`).
`getChatHistory` only re-labels the stored value with a TypeScript cast;
it does not change it. -/
inductive Role where
  | system
  | user
  | assistant
deriving DecidableEq, Repr

/-- The string Prisma stores and hands back for a role. -/
def Role.dbStr : Role → String
  | .system => "SYSTEM"
  | .user => "USER"
  | .assistant => "ASSISTANT"

/-- A row of the `Message` table, with the columns the chat service
reads and writes. -/
structure Message where
  id : Nat
  chatId : Nat
  role : Role
  content : String
  reasoning : Option String
  modelName : Option String
  modelId : Option String
  duration : Option Nat
  promptTokens : Option Nat
  completionTokens : Option Nat
  totalTokens : Option Nat
  createdAt : Nat
deriving DecidableEq, Repr

/-- A row of the `Chat` table. -/
structure Chat where
  id : Nat
  userId : String
  title : String
  modelId : Option Nat
  modelName : Option String
  updatedAt : Nat
deriving DecidableEq, Repr

/-- A row of the `AIModel` registry table. -/
structure AIModel where
  id : Nat
  name : String
  modelId : String
  provider : String
  baseUrl : Option String
  apiKey : Option String
  enabled : Bool
deriving DecidableEq, Repr

/-- The database: row lists in creation order (so `createdAt` is
ascending), a fresh-id counter standing for Prisma's generated ids, and a
logical clock standing for `new Date()`. -/
structure DB where
  chats : List Chat
  messages : List Message
  models : List AIModel
  nextId : Nat
  clock : Nat
deriving DecidableEq, Repr

/-- Well-formedness: every stored id (and every foreign chat id) is below
the fresh-id counter, so freshly generated ids never collide. -/
def DB.WF (db : DB) : Prop :=
  (∀ m ∈ db.messages, m.id < db.nextId ∧ m.chatId < db.nextId)
  ∧ (∀ c ∈ db.chats, c.id < db.nextId)

instance (db : DB) : Decidable db.WF := by
  unfold DB.WF; exact inferInstance

instance {ε α : Type} [DecidableEq ε] [DecidableEq α] : DecidableEq (Except ε α) :=
  fun a b =>
    match a, b with
    | .ok x, .ok y => decidable_of_iff (x = y) (by simp)
    | .error x, .error y => decidable_of_iff (x = y) (by simp)
    | .ok _, .error _ => isFalse (by simp)
    | .error _, .ok _ => isFalse (by simp)

/-- Errors of the chat service: a zod validation issue (with the path of
the offending field), `NotFoundError` (HTTP 404), or `ChatError` with its
`statusCode`. -/
inductive ServiceError where
  | validation (field : String) (message : String)
  | notFound (resource : String)
  | chatError (message : String) (statusCode : Nat)
deriving DecidableEq, Repr

/-! ## Chat service operations -/

/-- JavaScript `String.prototype.trim` (as invoked by `z.string().trim()`):
strip leading and trailing whitespace. -/
def jsTrim (s : String) : String :=
  ⟨((s.data.dropWhile Char.isWhitespace).reverse.dropWhile Char.isWhitespace).reverse⟩

/-- JavaScript `content.slice(0, n)`. -/
def strTake (s : String) (n : Nat) : String :=
  ⟨s.data.take n⟩

/-- The raw body of a send-message request: `content`, optional `chatId`,
optional `stream`. -/
structure SendParams where
  content : String
  chatId : Option Nat
  stream : Option Bool
deriving DecidableEq, Repr

/-- The parsed body: trimmed content, `stream` defaulted to `true`. -/
structure ParsedSend where
  content : String
  chatId : Option Nat
  stream : Bool
deriving DecidableEq, Repr

/-- `sendMessageSchema.parse`: trim the content, then require it
non-empty and at most 10000 characters long — both checks run on the
trimmed value, because `.trim()` precedes `.min`/`.max` in the chain. -/
def parseSendMessage (p : SendParams) : Except ServiceError ParsedSend :=
  let t := jsTrim p.content
  if t = "" then .error (.validation "content" "消息内容不能为空")
  else if t.length > 10000 then
    .error (.validation "content" "消息内容不能超过10000个字符")
  else .ok ⟨t, p.chatId, p.stream.getD true⟩

/-- `getDefaultModel`: the first enabled model, else a `ChatError`. -/
def getDefaultModel (db : DB) : Except ServiceError AIModel :=
  match db.models.find? (fun m => m.enabled) with
  | some m => .ok m
  | none => .error (.chatError "没有可用的 AI 模型配置，请联系管理员" 400)

/-- JS falsiness of an optional string: absent or empty. -/
def isBlank : Option String → Bool
  | none => true
  | some s => decide (s = "")

/-- `initOpenAIClient`: fails when `baseUrl` or `apiKey` is falsy. -/
def initOpenAIClient (m : AIModel) : Except ServiceError Unit :=
  if isBlank m.baseUrl || isBlank m.apiKey then
    .error (.chatError "模型配置不完整，缺少 baseUrl 或 apiKey" 400)
  else .ok ()

/-- A role/content pair as sent to the upstream client. -/
structure OpenAIMsg where
  role : String
  content : String
deriving DecidableEq, Repr

/-- All messages of one chat, in `createdAt` ascending order. -/
def chatMessages (db : DB) (chatId : Nat) : List Message :=
  db.messages.filter (fun m => decide (m.chatId = chatId))

/-- `getChatHistory`: query the chat's messages ordered `createdAt desc`,
take `limit`, then reverse back to chronological order and convert to
role/content pairs. -/
def getChatHistory (db : DB) (chatId : Nat) (limit : Nat) : List OpenAIMsg :=
  (((chatMessages db chatId).reverse.take limit).reverse).map
    (fun m => ⟨m.role.dbStr, m.content⟩)

/-- The context `sendMessage` establishes before persisting the user
turn: the resolved model, the chat id, and the assembled message list. -/
structure Ctx where
  model : AIModel
  chatId : Nat
  allMessages : List OpenAIMsg
deriving DecidableEq, Repr

/-- New-chat title: first 50 characters of the content plus an ellipsis
when longer. -/
def titleOf (content : String) : String :=
  strTake content 50 ++ (if content.length > 50 then "..." else "")

/-- `prisma.chat.create` for the no-`chatId` path of `sendMessage`. -/
def createChatRow (db : DB) (userId : String) (title : String) (m : AIModel) : DB × Nat :=
  let c : Chat := ⟨db.nextId, userId, title, some m.id, some m.name, db.clock⟩
  ({ db with
       chats := db.chats ++ [c]
       nextId := db.nextId + 1
       clock := db.clock + 1 },
   c.id)

/-- Steps 1–3 of `sendMessage` after validation: resolve the chat (or
create one titled from the content), resolve the model (the chat's model
when enabled, else the first enabled model), check the client config, and
assemble the context — history (for an existing chat) plus the new user
turn. The database is returned even on failure, because a new chat may
already have been created when a later step fails. -/
def resolveContext (userId content : String) (chatIdOpt : Option Nat) (db : DB) :
    DB × Except ServiceError Ctx :=
  match chatIdOpt with
  | some cid =>
      match db.chats.find? (fun c => decide (c.id = cid) && decide (c.userId = userId)) with
      | none => (db, .error (.notFound "对话"))
      | some chat =>
          let modelE : Except ServiceError AIModel :=
            match chat.modelId with
            | some mid =>
                match db.models.find? (fun m => decide (m.id = mid) && m.enabled) with
                | some m => Except.ok m
                | none => getDefaultModel db
            | none => getDefaultModel db
          match modelE with
          | .error e => (db, .error e)
          | .ok m =>
              match initOpenAIClient m with
              | .error e => (db, .error e)
              | .ok _ =>
                  (db, .ok ⟨m, cid, getChatHistory db cid 10 ++ [⟨"user", content⟩]⟩)
  | none =>
      match getDefaultModel db with
      | .error e => (db, .error e)
      | .ok m =>
          match createChatRow db userId (titleOf content) m with
          | (db', newId) =>
              match initOpenAIClient m with
              | .error e => (db', .error e)
              | .ok _ => (db', .ok ⟨m, newId, [⟨"user", content⟩]⟩)

/-- Step 4: persist the user's turn (`prisma.message.create`). -/
def addUserMessage (db : DB) (chatId : Nat) (content : String) : DB :=
  let msg : Message :=
    ⟨db.nextId, chatId, .user, content, none, none, none, none, none, none, none, db.clock⟩
  { db with
      messages := db.messages ++ [msg]
      nextId := db.nextId + 1
      clock := db.clock + 1 }

/-- The compensating `prisma.message.delete({ where: \x7b id \x7d })`. -/
def removeMessage (db : DB) (mid : Nat) : DB :=
  { db with messages := db.messages.filter (fun m => decide (m.id ≠ mid)) }

/-- The catch-block mapping of an upstream error to the `ChatError` that
`sendMessage` throws: an `OpenAI.APIError` keeps its status (defaulting
to 500), anything else becomes a 503. -/
def upstreamToChatError : UpstreamErr → ServiceError
  | .apiError s msg => .chatError ("AI 服务错误: " ++ msg) (s.getD 500)
  | .generic _ => .chatError "AI 服务暂时不可用，请稍后重试" 503

/-- JavaScript `Array.prototype.join(sep)`. -/
def joinWith (sep : String) : List String → String
  | [] => ""
  | [s] => s
  | s :: rest => s ++ sep ++ joinWith sep rest

/-- The locally assembled prompt text of the usage fallback: every
assembled message except the last (the new user turn is excluded by the
`i < allMessages.length - 1` loop bound), rendered `role: content` and
joined with newlines. -/
def promptConcat (msgs : List OpenAIMsg) : String :=
  joinWith "\n" (msgs.dropLast.map (fun m => m.role ++ ": " ++ m.content))

/-- Step 8 of `sendMessage`: when the tracked `totalTokens` is zero (and
the assembled message list is non-empty), recompute the usage triple
locally with the tokenizer `tok` — prompt side over `promptConcat`,
completion side over reply plus reasoning, total as their sum. -/
def applyUsageFallback (tok : String → Nat) (msgs : List OpenAIMsg)
    (content : String) (reasoning : Option String) (u : Usage) : Usage :=
  if u.totalTokens = 0 ∧ 0 < msgs.length then
    let p := tok (promptConcat msgs)
    let c := tok (content ++ reasoning.getD "")
    ⟨p, c, p + c⟩
  else u

/-- Step 9 of `sendMessage`: the `prisma.$transaction` persisting the
assistant message and bumping the chat's `updatedAt`, as one atomic
unit. -/
def finalizeSave (db : DB) (ctx : Ctx) (content : String) (reasoning : Option String)
    (usage : Usage) (duration : Nat) : DB :=
  let msg : Message :=
    ⟨db.nextId, ctx.chatId, .assistant, content, reasoning,
     some ctx.model.name, some ctx.model.modelId, some duration,
     some usage.promptTokens, some usage.completionTokens, some usage.totalTokens,
     db.clock⟩
  { db with
      messages := db.messages ++ [msg]
      chats := db.chats.map
        (fun c => if c.id = ctx.chatId then
            ⟨c.id, c.userId, c.title, c.modelId, c.modelName, db.clock⟩ else c)
      nextId := db.nextId + 1
      clock := db.clock + 1 }

/-- The `AIResponse` returned by `sendMessage`. -/
structure AIResponse where
  content : String
  reasoning : Option String
  modelId : String
  modelName : String
  duration : Nat
  usage : Usage
deriving DecidableEq, Repr

/-- The environment of one `sendMessage` call: what the upstream would
deliver in each mode, whether a side-channel callback was passed, whether
the compensating delete and the finalization transaction fail, and the
measured wall-clock duration. -/
structure SendEnv where
  streamOutcome : StreamOutcome
  completionOutcome : Except UpstreamErr Completion
  hasCallback : Bool
  deleteFails : Bool
  saveFails : Bool
  duration : Nat

/-- `sendMessage`: validate, resolve context, persist the user turn, call
upstream (streaming or single-shot), compensate on upstream failure
(best-effort delete of the user turn, swallowed when it fails), apply the
local usage fallback, persist the assistant turn atomically (failure
logged only), and return the accumulated `AIResponse` together with the
events delivered to the side-channel. -/
def sendMessage (tok : String → Nat) (userId : String) (params : SendParams)
    (env : SendEnv) (db : DB) : DB × List StreamEvent × Except ServiceError AIResponse :=
  match parseSendMessage params with
  | .error e => (db, [], .error e)
  | .ok p =>
      match resolveContext userId p.content p.chatId db with
      | (db1, .error e) => (db1, [], .error e)
      | (db1, .ok ctx) =>
          let userMsgId := db1.nextId
          let db2 := addUserMessage db1 ctx.chatId p.content
          match (if p.stream then runStream env.hasCallback env.streamOutcome
                 else runNonStream env.hasCallback env.completionOutcome) with
          | (acc, some e) =>
              let db3 := if env.deleteFails then db2 else removeMessage db2 userMsgId
              (db3, acc.events, .error (upstreamToChatError e))
          | (acc, none) =>
              let usage := applyUsageFallback tok ctx.allMessages acc.fullContent
                acc.reasoning acc.usage
              let resp : AIResponse :=
                ⟨acc.fullContent, acc.reasoning, ctx.model.modelId, ctx.model.name,
                 env.duration, usage⟩
              let db3 := if env.saveFails then db2
                         else finalizeSave db2 ctx acc.fullContent acc.reasoning usage
                           env.duration
              (db3, acc.events, .ok resp)

/-! ## Structural lemmas about the embedded service -/

/-- The status an upstream error carries, when it carries one. -/
def upstreamStatus : UpstreamErr → Option Nat
  | .apiError s _ => s
  | .generic _ => none

/-- The HTTP status of a service error (`ChatError.statusCode`, 404 for
`NotFoundError`, 400 for a zod issue). -/
def errStatusCode : ServiceError → Nat
  | .validation _ _ => 400
  | .notFound _ => 404
  | .chatError _ s => s

/-- The assistant rows of the message table. -/
def assistantMessages (db : DB) : List Message :=
  db.messages.filter (fun m => decide (m.role = .assistant))

theorem resolveContext_some_fst (u c : String) (cid : Nat) (db : DB) :
    (resolveContext u c (some cid) db).1 = db := by
  unfold resolveContext
  cases h : db.chats.find? (fun ch => decide (ch.id = cid) && decide (ch.userId = u)) with
  | none => simp [h]
  | some chat =>
      cases hm : (match chat.modelId with
        | some mid =>
            match db.models.find? (fun m => decide (m.id = mid) && m.enabled) with
            | some m => Except.ok m
            | none => getDefaultModel db
        | none => getDefaultModel db : Except ServiceError AIModel) with
      | error e => simp [h, hm]
      | ok m =>
          cases hi : initOpenAIClient m with
          | error e => simp [h, hm, hi]
          | ok _ => simp [h, hm, hi]

theorem resolveContext_none_ok (u c : String) (db db' : DB) (ctx : Ctx)
    (h : resolveContext u c none db = (db', .ok ctx)) :
    ∃ m : AIModel,
      getDefaultModel db = .ok m
      ∧ initOpenAIClient m = .ok ()
      ∧ db' = (createChatRow db u (titleOf c) m).1
      ∧ ctx = ⟨m, db.nextId, [⟨"user", c⟩]⟩ := by
  unfold resolveContext at h
  cases hgd : getDefaultModel db with
  | error e => simp [hgd] at h
  | ok m =>
      cases hi : initOpenAIClient m with
      | error e => simp [hgd, hi, createChatRow] at h
      | ok _ =>
          simp [hgd, hi, createChatRow] at h
          obtain ⟨h1, h2⟩ := h
          exact ⟨m, rfl, hi ▸ rfl, by simp [createChatRow, ← h1], by simp [← h2]⟩

theorem resolveContext_some_ok (u c : String) (cid : Nat) (db db' : DB) (ctx : Ctx)
    (h : resolveContext u c (some cid) db = (db', .ok ctx)) :
    db' = db ∧ ctx.chatId = cid
    ∧ ctx.allMessages = getChatHistory db cid 10 ++ [⟨"user", c⟩] := by
  have hfst : db' = db := by
    have := congrArg Prod.fst h
    simpa [resolveContext_some_fst] using this.symm
  unfold resolveContext at h
  cases hf : db.chats.find? (fun ch => decide (ch.id = cid) && decide (ch.userId = u)) with
  | none => simp [hf] at h
  | some chat =>
      cases hm : (match chat.modelId with
        | some mid =>
            match db.models.find? (fun m => decide (m.id = mid) && m.enabled) with
            | some m => Except.ok m
            | none => getDefaultModel db
        | none => getDefaultModel db : Except ServiceError AIModel) with
      | error e => simp [hf, hm] at h
      | ok m =>
          cases hi : initOpenAIClient m with
          | error e => simp [hf, hm, hi] at h
          | ok _ =>
              simp [hf, hm, hi] at h
              exact ⟨hfst, by simp [← h.2], by simp [← h.2]⟩

theorem resolveContext_messages (u c : String) (o : Option Nat) (db : DB) :
    (resolveContext u c o db).1.messages = db.messages := by
  cases o with
  | some cid => rw [resolveContext_some_fst]
  | none =>
      unfold resolveContext
      cases hgd : getDefaultModel db with
      | error e => simp [hgd]
      | ok m =>
          cases hi : initOpenAIClient m with
          | error e => simp [hgd, createChatRow, hi]
          | ok _ => simp [hgd, createChatRow, hi]

theorem resolveContext_WF (u c : String) (o : Option Nat) (db : DB) (h : db.WF) :
    (resolveContext u c o db).1.WF := by
  cases o with
  | some cid => rw [resolveContext_some_fst]; exact h
  | none =>
      unfold resolveContext
      obtain ⟨hm, hc⟩ := h
      cases hgd : getDefaultModel db with
      | error e => exact ⟨hm, hc⟩
      | ok m =>
          have hwf' : (createChatRow db u (titleOf c) m).1.WF := by
            refine ⟨?_, ?_⟩
            · intro x hx
              simp [createChatRow] at hx ⊢
              have := hm x hx
              omega
            · intro x hx
              simp [createChatRow] at hx ⊢
              rcases hx with hx | hx
              · have := hc x hx; omega
              · rw [hx]; simp
          cases hi : initOpenAIClient m with
          | error e => simpa [createChatRow, hi] using hwf'
          | ok _ => simpa [createChatRow, hi] using hwf'

theorem removeMessage_addUserMessage (db : DB) (cid : Nat) (content : String)
    (h : ∀ m ∈ db.messages, m.id ≠ db.nextId) :
    (removeMessage (addUserMessage db cid content) db.nextId).messages = db.messages := by
  simp only [removeMessage, addUserMessage, List.filter_append]
  rw [List.filter_eq_self.mpr, List.filter_cons]
  · simp
  · intro m hm
    simpa using h m hm

/-- C3: for every upstream error raised during the model call (in either
mode), `sendMessage` fails with the `ChatError` built by the catch block —
carrying the upstream status when the `APIError` has one, and a 5xx
status (500 or 503) otherwise; when the compensating delete succeeds the
message table is restored exactly to its pre-call contents; the failure
of the delete itself is swallowed (the same error is thrown either way,
as the conclusion holds for both values of `deleteFails`); and no
assistant message is persisted on this path. -/
theorem C3_upstream_failure
    (tok : String → Nat) (userId : String) (params : SendParams) (env : SendEnv)
    (db db1 : DB) (ctx : Ctx) (p : ParsedSend) (e : UpstreamErr) (acc : StreamAcc)
    (hwf : db.WF)
    (hparse : parseSendMessage params = .ok p)
    (hctx : resolveContext userId p.content p.chatId db = (db1, .ok ctx))
    (hbranch : (if p.stream then runStream env.hasCallback env.streamOutcome
                else runNonStream env.hasCallback env.completionOutcome)
          = (acc, some e)) :
    (sendMessage tok userId params env db).2.2 = .error (upstreamToChatError e)
  ∧ (∀ s, upstreamStatus e = some s → errStatusCode (upstreamToChatError e) = s)
  ∧ (upstreamStatus e = none → 500 ≤ errStatusCode (upstreamToChatError e))
  ∧ (env.deleteFails = false →
      (sendMessage tok userId params env db).1.messages = db.messages)
  ∧ assistantMessages (sendMessage tok userId params env db).1 = assistantMessages db := by
  have hwf1 : db1.WF := by
    have h := resolveContext_WF userId p.content p.chatId db hwf
    rw [hctx] at h; exact h
  have hmsgs1 : db1.messages = db.messages := by
    have h := resolveContext_messages userId p.content p.chatId db
    rw [hctx] at h; exact h
  have hred : sendMessage tok userId params env db
      = (if env.deleteFails then addUserMessage db1 ctx.chatId p.content
         else removeMessage (addUserMessage db1 ctx.chatId p.content) db1.nextId,
         acc.events, .error (upstreamToChatError e)) := by
    unfold sendMessage
    simp only [hparse, hctx, hbranch]
  have hrestore : (removeMessage (addUserMessage db1 ctx.chatId p.content)
      db1.nextId).messages = db.messages := by
    rw [removeMessage_addUserMessage db1 ctx.chatId p.content
      (fun m hm => Nat.ne_of_lt (hwf1.1 m hm).1)]
    exact hmsgs1
  refine ⟨?_, ?_, ?_, ?_, ?_⟩
  · rw [hred]
  · intro s hs
    cases e with
    | apiError st msg =>
        cases st with
        | none => simp [upstreamStatus] at hs
        | some v => simp [upstreamStatus] at hs; simp [upstreamToChatError, errStatusCode, hs]
    | generic msg => simp [upstreamStatus] at hs
  · intro hs
    cases e with
    | apiError st msg =>
        cases st with
        | none => simp [upstreamToChatError, errStatusCode]
        | some v => simp [upstreamStatus] at hs
    | generic msg => simp [upstreamToChatError, errStatusCode]
  · intro hdel
    rw [hred]
    simp only [hdel, if_false, Bool.false_eq_true]
    exact hrestore
  · rw [hred]
    cases hdel : env.deleteFails with
    | true =>
        simp only [if_true]
        simp [assistantMessages, addUserMessage, List.filter_append, hmsgs1]
    | false =>
        simp only [if_false, Bool.false_eq_true]
        simp [assistantMessages, hrestore]

/-- A small concrete database fixture: one chat of user "alice" holding
one prior user message, and one fully configured enabled model. -/
def dbFix : DB :=
  ⟨[⟨0, "alice", "t", some 1, some "m", 0⟩],
   [⟨2, 0, Role.user, "hi", none, none, none, none, none, none, none, 0⟩],
   [⟨1, "m", "gpt-4o", "openai", some "https://u", some "k", true⟩], 3, 1⟩

/-- The model row of `dbFix`. -/
def modelFix : AIModel := ⟨1, "m", "gpt-4o", "openai", some "https://u", some "k", true⟩

/-- The send environment of the C3 witness: a streamed call that yields
one content chunk and then raises an `APIError` with status 502. -/
def envC3 : SendEnv :=
  ⟨⟨[⟨some ⟨some "pa", none⟩, none⟩], some (.apiError (some 502) "bad")⟩,
   .error (.generic "unused"), true, false, false, 0⟩

/-- C3 witness: a concrete failing streaming turn on the `dbFix` chat. -/
theorem C3_upstream_failure_witness :
    (dbFix.WF
     ∧ parseSendMessage ⟨"hello", some 0, some true⟩ = .ok ⟨"hello", some 0, true⟩
     ∧ resolveContext "alice" "hello" (some 0) dbFix
         = (dbFix, .ok ⟨modelFix, 0, [⟨"USER", "hi"⟩, ⟨"user", "hello"⟩]⟩)
     ∧ runStream true ⟨[⟨some ⟨some "pa", none⟩, none⟩], some (.apiError (some 502) "bad")⟩
         = (⟨"pa", none, Usage.zero, [StreamEvent.content "pa"]⟩,
            some (.apiError (some 502) "bad")))
  ∧ ((sendMessage (fun _ => 0) "alice" ⟨"hello", some 0, some true⟩ envC3 dbFix).2.2
        = .error (upstreamToChatError (.apiError (some 502) "bad"))
    ∧ (∀ s, upstreamStatus (.apiError (some 502) "bad") = some s →
        errStatusCode (upstreamToChatError (.apiError (some 502) "bad")) = s)
    ∧ (upstreamStatus (.apiError (some 502) "bad") = none →
        500 ≤ errStatusCode (upstreamToChatError (.apiError (some 502) "bad")))
    ∧ (envC3.deleteFails = false →
        (sendMessage (fun _ => 0) "alice" ⟨"hello", some 0, some true⟩ envC3 dbFix).1.messages
          = dbFix.messages)
    ∧ assistantMessages
        (sendMessage (fun _ => 0) "alice" ⟨"hello", some 0, some true⟩ envC3 dbFix).1
      = assistantMessages dbFix) :=
  ⟨⟨by decide, by decide, by decide, by decide⟩,
   C3_upstream_failure (fun _ => 0) "alice" ⟨"hello", some 0, some true⟩ envC3
     dbFix dbFix ⟨modelFix, 0, [⟨"USER", "hi"⟩, ⟨"user", "hello"⟩]⟩
     ⟨"hello", some 0, true⟩ (.apiError (some 502) "bad")
     ⟨"pa", none, Usage.zero, [StreamEvent.content "pa"]⟩
     (by decide) (by decide) (by decide) (by decide)⟩

/-- C7: on successful upstream completion `sendMessage` returns the full
accumulated `AIResponse` (content, reasoning, model identifiers, duration
and post-fallback usage) and does not raise; when the finalization
transaction succeeds it appends exactly the assistant message with those
fields and bumps exactly the chat's `updatedAt`, in one atomic unit; when
it fails, the database is left exactly as it was after the user turn was
persisted (neither write happens) and the same successful response is
still returned. -/
theorem C7_finalization
    (tok : String → Nat) (userId : String) (params : SendParams) (env : SendEnv)
    (db db1 db2 : DB) (ctx : Ctx) (p : ParsedSend) (acc : StreamAcc) (usage : Usage)
    (hparse : parseSendMessage params = .ok p)
    (hctx : resolveContext userId p.content p.chatId db = (db1, .ok ctx))
    (hbranch : (if p.stream then runStream env.hasCallback env.streamOutcome
                else runNonStream env.hasCallback env.completionOutcome)
          = (acc, none))
    (hdb2 : db2 = addUserMessage db1 ctx.chatId p.content)
    (husage : usage
        = applyUsageFallback tok ctx.allMessages acc.fullContent acc.reasoning acc.usage) :
    (sendMessage tok userId params env db).2.2
        = .ok ⟨acc.fullContent, acc.reasoning, ctx.model.modelId, ctx.model.name,
               env.duration, usage⟩
  ∧ (env.saveFails = true → (sendMessage tok userId params env db).1 = db2)
  ∧ (env.saveFails = false →
        (sendMessage tok userId params env db).1.messages
          = db2.messages
            ++ [⟨db2.nextId, ctx.chatId, .assistant, acc.fullContent, acc.reasoning,
                 some ctx.model.name, some ctx.model.modelId, some env.duration,
                 some usage.promptTokens, some usage.completionTokens,
                 some usage.totalTokens, db2.clock⟩]
      ∧ (sendMessage tok userId params env db).1.chats
          = db2.chats.map (fun c => if c.id = ctx.chatId then
              ⟨c.id, c.userId, c.title, c.modelId, c.modelName, db2.clock⟩ else c)) := by
  have hred : sendMessage tok userId params env db
      = (if env.saveFails then db2
         else finalizeSave db2 ctx acc.fullContent acc.reasoning usage env.duration,
         acc.events,
         .ok ⟨acc.fullContent, acc.reasoning, ctx.model.modelId, ctx.model.name,
              env.duration, usage⟩) := by
    unfold sendMessage
    simp only [hparse, hctx, hbranch, ← hdb2, ← husage]
  refine ⟨?_, ?_, ?_⟩
  · rw [hred]
  · intro h; rw [hred]; simp [h]
  · intro h; rw [hred]; simp [h, finalizeSave]

/-- The send environment of the C7 witness: a successful streamed call
delivering one content chunk that also reports usage. -/
def envOk : SendEnv :=
  ⟨⟨[⟨some ⟨some "ok", none⟩, some ⟨3, 4, 7⟩⟩], none⟩,
   .error (.generic "unused"), true, false, false, 5⟩

/-- The database state after the C7 witness persists its user turn. -/
def db2C7 : DB := addUserMessage dbFix 0 "hello"

/-- C7 witness: a concrete successful streaming turn on the `dbFix`
chat, with the finalization transaction succeeding. -/
theorem C7_finalization_witness :
    (parseSendMessage ⟨"hello", some 0, some true⟩ = .ok ⟨"hello", some 0, true⟩
     ∧ resolveContext "alice" "hello" (some 0) dbFix
         = (dbFix, .ok ⟨modelFix, 0, [⟨"USER", "hi"⟩, ⟨"user", "hello"⟩]⟩)
     ∧ runStream true ⟨[⟨some ⟨some "ok", none⟩, some ⟨3, 4, 7⟩⟩], none⟩
         = (⟨"ok", none, ⟨3, 4, 7⟩, [StreamEvent.content "ok", StreamEvent.done]⟩, none)
     ∧ db2C7 = addUserMessage dbFix 0 "hello"
     ∧ (⟨3, 4, 7⟩ : Usage)
         = applyUsageFallback (fun _ => 0) [⟨"USER", "hi"⟩, ⟨"user", "hello"⟩]
             "ok" none ⟨3, 4, 7⟩)
  ∧ ((sendMessage (fun _ => 0) "alice" ⟨"hello", some 0, some true⟩ envOk dbFix).2.2
        = .ok ⟨"ok", none, modelFix.modelId, modelFix.name, envOk.duration, ⟨3, 4, 7⟩⟩
    ∧ (envOk.saveFails = true →
        (sendMessage (fun _ => 0) "alice" ⟨"hello", some 0, some true⟩ envOk dbFix).1
          = db2C7)
    ∧ (envOk.saveFails = false →
        (sendMessage (fun _ => 0) "alice" ⟨"hello", some 0, some true⟩ envOk dbFix).1.messages
          = db2C7.messages
            ++ [⟨db2C7.nextId, 0, .assistant, "ok", none,
                 some modelFix.name, some modelFix.modelId, some envOk.duration,
                 some (3 : Nat), some (4 : Nat), some (7 : Nat), db2C7.clock⟩]
      ∧ (sendMessage (fun _ => 0) "alice" ⟨"hello", some 0, some true⟩ envOk dbFix).1.chats
          = db2C7.chats.map (fun c => if c.id = 0 then
              ⟨c.id, c.userId, c.title, c.modelId, c.modelName, db2C7.clock⟩ else c))) :=
  ⟨⟨by decide, by decide, by decide, by decide, by decide⟩,
   C7_finalization (fun _ => 0) "alice" ⟨"hello", some 0, some true⟩ envOk
     dbFix dbFix db2C7 ⟨modelFix, 0, [⟨"USER", "hi"⟩, ⟨"user", "hello"⟩]⟩
     ⟨"hello", some 0, true⟩
     ⟨"ok", none, ⟨3, 4, 7⟩, [StreamEvent.content "ok", StreamEvent.done]⟩ ⟨3, 4, 7⟩
     (by decide) (by decide) (by decide) (by decide) (by decide)⟩

/-- C10 (implicit frame effect): when `sendMessage` creates a new chat
(`chatId` absent) and the upstream call then fails, the compensating
action deletes only the just-persisted user message — the new `Chat` row
survives in the final database, and (when the delete itself succeeds) it
is left with zero messages. -/
theorem C10_frame
    (tok : String → Nat) (userId : String) (params : SendParams) (env : SendEnv)
    (db db1 : DB) (ctx : Ctx) (p : ParsedSend) (e : UpstreamErr) (acc : StreamAcc)
    (hwf : db.WF)
    (hparse : parseSendMessage params = .ok p)
    (hchat : p.chatId = none)
    (hctx : resolveContext userId p.content none db = (db1, .ok ctx))
    (hbranch : (if p.stream then runStream env.hasCallback env.streamOutcome
                else runNonStream env.hasCallback env.completionOutcome)
          = (acc, some e)) :
    ∃ c : Chat,
      db1.chats = db.chats ++ [c]
    ∧ c.userId = userId
    ∧ c.id = ctx.chatId
    ∧ (sendMessage tok userId params env db).1.chats = db.chats ++ [c]
    ∧ (env.deleteFails = false →
        (sendMessage tok userId params env db).1.messages.filter
          (fun m => decide (m.chatId = ctx.chatId)) = []) := by
  obtain ⟨m, hgd, hi, hdb', hctxEq⟩ := resolveContext_none_ok userId p.content db db1 ctx hctx
  have hwf1 : db1.WF := by
    have h := resolveContext_WF userId p.content none db hwf
    rw [hctx] at h; exact h
  have hmsgs1 : db1.messages = db.messages := by
    have h := resolveContext_messages userId p.content none db
    rw [hctx] at h; exact h
  have hred : sendMessage tok userId params env db
      = (if env.deleteFails then addUserMessage db1 ctx.chatId p.content
         else removeMessage (addUserMessage db1 ctx.chatId p.content) db1.nextId,
         acc.events, .error (upstreamToChatError e)) := by
    unfold sendMessage
    simp only [hparse, hchat, hctx, hbranch]
  have hrestore : (removeMessage (addUserMessage db1 ctx.chatId p.content)
      db1.nextId).messages = db.messages := by
    rw [removeMessage_addUserMessage db1 ctx.chatId p.content
      (fun x hx => Nat.ne_of_lt (hwf1.1 x hx).1)]
    exact hmsgs1
  refine ⟨⟨db.nextId, userId, titleOf p.content, some m.id, some m.name, db.clock⟩,
    ?_, rfl, ?_, ?_, ?_⟩
  · rw [hdb']; simp [createChatRow]
  · rw [hctxEq]
  · rw [hred]
    have hchats2 : (addUserMessage db1 ctx.chatId p.content).chats = db1.chats := by
      simp [addUserMessage]
    have hchats3 : db1.chats
        = db.chats ++ [⟨db.nextId, userId, titleOf p.content, some m.id, some m.name,
            db.clock⟩] := by
      rw [hdb']; simp [createChatRow]
    cases env.deleteFails <;> simp [removeMessage, hchats2, hchats3]
  · intro hdel
    rw [hred]
    simp only [hdel, if_false, Bool.false_eq_true]
    rw [List.filter_eq_nil_iff.mpr]
    intro x hx
    rw [hrestore] at hx
    have hlt := (hwf.1 x hx).2
    have : ctx.chatId = db.nextId := by rw [hctxEq]
    simp [this]
    omega

/-- An initial database fixture with no chats and no messages, one
enabled model. -/
def dbEmpty : DB :=
  ⟨[], [], [⟨0, "m", "gpt-4o", "openai", some "https://u", some "k", true⟩], 1, 0⟩

/-- C10 witness: a failing streamed turn with no `chatId` on `dbEmpty` —
the created chat survives with zero messages. -/
theorem C10_frame_witness :
    (dbEmpty.WF
     ∧ parseSendMessage ⟨"hello", none, some true⟩ = .ok ⟨"hello", none, true⟩
     ∧ (⟨"hello", none, true⟩ : ParsedSend).chatId = none
     ∧ resolveContext "alice" "hello" none dbEmpty
         = (⟨[⟨1, "alice", "hello", some 0, some "m", 0⟩], [],
             [⟨0, "m", "gpt-4o", "openai", some "https://u", some "k", true⟩], 2, 1⟩,
            .ok ⟨⟨0, "m", "gpt-4o", "openai", some "https://u", some "k", true⟩, 1,
                 [⟨"user", "hello"⟩]⟩)
     ∧ runStream true ⟨[⟨some ⟨some "pa", none⟩, none⟩], some (.apiError (some 502) "bad")⟩
         = (⟨"pa", none, Usage.zero, [StreamEvent.content "pa"]⟩,
            some (.apiError (some 502) "bad")))
  ∧ (∃ c : Chat,
      (⟨[⟨1, "alice", "hello", some 0, some "m", 0⟩], [],
        [⟨0, "m", "gpt-4o", "openai", some "https://u", some "k", true⟩], 2, 1⟩ : DB).chats
        = dbEmpty.chats ++ [c]
    ∧ c.userId = "alice"
    ∧ c.id = 1
    ∧ (sendMessage (fun _ => 0) "alice" ⟨"hello", none, some true⟩ envC3 dbEmpty).1.chats
        = dbEmpty.chats ++ [c]
    ∧ (envC3.deleteFails = false →
        (sendMessage (fun _ => 0) "alice" ⟨"hello", none, some true⟩ envC3 dbEmpty).1.messages.filter
          (fun m => decide (m.chatId = 1)) = [])) :=
  ⟨⟨by decide, by decide, by decide, by decide, by decide⟩,
   C10_frame (fun _ => 0) "alice" ⟨"hello", none, some true⟩ envC3 dbEmpty
     ⟨[⟨1, "alice", "hello", some 0, some "m", 0⟩], [],
      [⟨0, "m", "gpt-4o", "openai", some "https://u", some "k", true⟩], 2, 1⟩
     ⟨⟨0, "m", "gpt-4o", "openai", some "https://u", some "k", true⟩, 1, [⟨"user", "hello"⟩]⟩
     ⟨"hello", none, true⟩ (.apiError (some 502) "bad")
     ⟨"pa", none, Usage.zero, [StreamEvent.content "pa"]⟩
     (by decide) (by decide) (by decide) (by decide) (by decide)⟩

/-- `getChatHistory` returns exactly the last `limit` messages of the
chat in chronological (oldest-first) order: querying `createdAt desc`,
taking `limit` and reversing equals dropping all but the last `limit`. -/
theorem getChatHistory_eq (db : DB) (cid limit : Nat) :
    getChatHistory db cid limit
      = ((chatMessages db cid).drop ((chatMessages db cid).length - limit)).map
          (fun m => ⟨m.role.dbStr, m.content⟩) := by
  unfold getChatHistory
  congr 1
  rw [← List.rtake_eq_reverse_take_reverse (chatMessages db cid) limit]
  rfl

/-- C6: the context assembled for a `sendMessage` call on an existing
chat is the last 10 prior messages of that chat, oldest first, converted
to role/content pairs, with the new user turn appended last. In
particular (witness) a second sequential call in a chat holding the first
call's user and assistant turns sends them in chronological order. -/
theorem C6_context (userId content : String) (cid : Nat) (db db' : DB) (ctx : Ctx)
    (hctx : resolveContext userId content (some cid) db = (db', .ok ctx)) :
    ctx.allMessages
      = ((chatMessages db cid).drop ((chatMessages db cid).length - 10)).map
          (fun m => ⟨m.role.dbStr, m.content⟩)
        ++ [⟨"user", content⟩] := by
  obtain ⟨-, -, hmsgs⟩ := resolveContext_some_ok userId content cid db db' ctx hctx
  rw [hmsgs, getChatHistory_eq]

/-- A chat whose history already holds the first turn's user and
assistant messages. -/
def dbTwoTurns : DB :=
  ⟨[⟨0, "alice", "t", some 1, some "m", 0⟩],
   [⟨2, 0, Role.user, "q1", none, none, none, none, none, none, none, 0⟩,
    ⟨3, 0, Role.assistant, "a1", none, none, none, none, none, none, none, 1⟩],
   [⟨1, "m", "gpt-4o", "openai", some "https://u", some "k", true⟩], 4, 2⟩

/-- C6 witness: the second sequential call on `dbTwoTurns` assembles
`[USER q1, ASSISTANT a1, user q2]` — the first call's turns in
chronological order with the new turn appended last. -/
theorem C6_context_witness :
    (resolveContext "alice" "q2" (some 0) dbTwoTurns
        = (dbTwoTurns,
           .ok ⟨modelFix, 0, [⟨"USER", "q1"⟩, ⟨"ASSISTANT", "a1"⟩, ⟨"user", "q2"⟩]⟩))
  ∧ (⟨modelFix, 0, [⟨"USER", "q1"⟩, ⟨"ASSISTANT", "a1"⟩, ⟨"user", "q2"⟩]⟩ : Ctx).allMessages
      = ((chatMessages dbTwoTurns 0).drop ((chatMessages dbTwoTurns 0).length - 10)).map
          (fun m => ⟨m.role.dbStr, m.content⟩)
        ++ [⟨"user", "q2"⟩] :=
  ⟨by decide,
   C6_context "alice" "q2" 0 dbTwoTurns dbTwoTurns
     ⟨modelFix, 0, [⟨"USER", "q1"⟩, ⟨"ASSISTANT", "a1"⟩, ⟨"user", "q2"⟩]⟩ (by decide)⟩

/-- A raw content of 10001 characters: one leading space and 10000
letters. Its trimmed form is exactly 10000 characters long. -/
def bigContent : String := ⟨' ' :: List.replicate 10000 'a'⟩

theorem dropWhile_replicate_not (p : Char → Bool) (a : Char) (n : Nat) (h : p a = false) :
    (List.replicate n a).dropWhile p = List.replicate n a := by
  cases n with
  | zero => simp
  | succ k => simp [List.replicate_succ, List.dropWhile_cons, h]

theorem jsTrim_bigContent : jsTrim bigContent = ⟨List.replicate 10000 'a'⟩ := by
  unfold jsTrim bigContent
  refine congrArg String.mk ?_
  show ((((' ' :: List.replicate 10000 'a').dropWhile
      Char.isWhitespace)).reverse.dropWhile Char.isWhitespace).reverse
    = List.replicate 10000 'a'
  rw [List.dropWhile_cons]
  rw [if_pos (show Char.isWhitespace ' ' = true from by decide)]
  rw [dropWhile_replicate_not _ _ _ (by decide)]
  rw [List.reverse_replicate]
  rw [dropWhile_replicate_not _ _ _ (by decide)]
  rw [List.reverse_replicate]

/-- C5 (counterexample): the claim "every input whose content exceeds
10,000 units in length fails with a validation error" is false: zod's
`.trim()` runs before `.max(10000)`, so a 10001-character raw content
whose trimmed form is exactly 10000 characters passes validation and the
call completes successfully. -/
theorem C5_counterexample :
    10000 < bigContent.length
  ∧ (sendMessage (fun _ => 0) "alice" ⟨bigContent, none, some true⟩ envOk dbEmpty).2.2
      = .ok ⟨"ok", none, "gpt-4o", "m", 5, ⟨3, 4, 7⟩⟩ := by
  have hlen10000 : (jsTrim bigContent).length = 10000 := by
    rw [jsTrim_bigContent]
    show (List.replicate 10000 'a').length = 10000
    rw [List.length_replicate]
  constructor
  · show 10000 < (⟨' ' :: List.replicate 10000 'a'⟩ : String).length
    show 10000 < (' ' :: List.replicate 10000 'a').length
    rw [List.length_cons, List.length_replicate]
    omega
  · have hne : ¬ jsTrim bigContent = "" := by
      intro h
      have := congrArg String.length h
      rw [hlen10000] at this
      simp [String.length] at this
    have hnl : ¬ 10000 < (jsTrim bigContent).length := by
      rw [hlen10000]; omega
    have hparse : parseSendMessage ⟨bigContent, none, some true⟩
        = .ok ⟨jsTrim bigContent, none, true⟩ := by
      unfold parseSendMessage
      simp only [if_neg hne, if_neg hnl]
      rfl
    have hctx : resolveContext "alice" (jsTrim bigContent) none dbEmpty
        = (⟨[⟨1, "alice", titleOf (jsTrim bigContent), some 0, some "m", 0⟩], [],
            [⟨0, "m", "gpt-4o", "openai", some "https://u", some "k", true⟩], 2, 1⟩,
           .ok ⟨⟨0, "m", "gpt-4o", "openai", some "https://u", some "k", true⟩, 1,
                [⟨"user", jsTrim bigContent⟩]⟩) := by
      unfold resolveContext dbEmpty getDefaultModel initOpenAIClient createChatRow isBlank
      simp
    unfold sendMessage
    simp only [hparse, hctx]
    simp only [show (⟨jsTrim bigContent, none, true⟩ : ParsedSend).stream = true from rfl,
      if_true]
    simp only [show runStream envOk.hasCallback envOk.streamOutcome
        = (⟨"ok", none, ⟨3, 4, 7⟩, [StreamEvent.content "ok", StreamEvent.done]⟩, none)
      from by decide]
    simp [applyUsageFallback, envOk, dbEmpty]

/-- C5 (amended): validation is checked on the trimmed content — for
every input whose content is empty after trimming or whose trimmed
content exceeds 10,000 characters, `sendMessage` fails with a validation
error naming the `content` field, before any chat row or message row is
created: the database is returned unchanged and no events are emitted. -/
theorem C5_amended (tok : String → Nat) (userId : String) (params : SendParams)
    (env : SendEnv) (db : DB)
    (hviol : jsTrim params.content = "" ∨ 10000 < (jsTrim params.content).length) :
    ∃ msg, sendMessage tok userId params env db
        = (db, [], .error (.validation "content" msg)) := by
  by_cases ht : jsTrim params.content = ""
  · refine ⟨"消息内容不能为空", ?_⟩
    unfold sendMessage parseSendMessage
    simp [ht]
  · have hlen : 10000 < (jsTrim params.content).length := hviol.resolve_left ht
    refine ⟨"消息内容不能超过10000个字符", ?_⟩
    unfold sendMessage parseSendMessage
    simp [ht, hlen]

/-- C5 witness: whitespace-only content fails validation on the
unchanged database. -/
theorem C5_amended_witness :
    (jsTrim "   " = "" ∨ 10000 < (jsTrim "   ").length)
  ∧ ∃ msg, sendMessage (fun _ => 0) "alice" ⟨"   ", none, none⟩ envOk dbFix
      = (dbFix, [], .error (.validation "content" msg)) :=
  ⟨Or.inl (by decide),
   C5_amended (fun _ => 0) "alice" ⟨"   ", none, none⟩ envOk dbFix (Or.inl (by decide))⟩

/-- C2 (counterexample): the claim "in non-streaming mode, when a
side-channel callback is present, exactly one content event carrying the
full reply is emitted followed by exactly one done event" is false when
the reply is empty: the guard `if (onChunk && fullContent)` is falsy for
an empty string, so no event at all is emitted — not even `done`. -/
theorem C2_counterexample :
    (sendMessage (fun _ => 0) "alice" ⟨"hi", some 0, some false⟩
        ⟨⟨[], none⟩, .ok ⟨[⟨some "", none⟩], some ⟨1, 2, 3⟩⟩, true, false, false, 0⟩
        dbFix).2.1
      = ([] : List StreamEvent)
  ∧ ∀ s : String, ([] : List StreamEvent) ≠ [StreamEvent.content s, StreamEvent.done] :=
  ⟨by decide, fun s => by simp⟩

/-- C2 (amended): for the same upstream response (equal full text,
reasoning and usage) the streaming and non-streaming branches of
`sendMessage` return the identical final `AIResponse`; and in
non-streaming mode with a callback present, exactly one content event
carrying the full reply followed by exactly one done event is emitted
when the reply is non-empty, while an empty reply emits no events at
all. -/
theorem C2_amended
    (tok : String → Nat) (userId content : String) (cid : Option Nat)
    (envS envN : SendEnv) (db db1 : DB) (ctx : Ctx) (accS accN : StreamAcc)
    (hv1 : ¬ jsTrim content = "") (hv2 : ¬ 10000 < (jsTrim content).length)
    (hctx : resolveContext userId (jsTrim content) cid db = (db1, .ok ctx))
    (hS : runStream envS.hasCallback envS.streamOutcome = (accS, none))
    (hN : runNonStream envN.hasCallback envN.completionOutcome = (accN, none))
    (hc : accS.fullContent = accN.fullContent)
    (hr : accS.reasoning = accN.reasoning)
    (hu : accS.usage = accN.usage)
    (hd : envS.duration = envN.duration) :
    (sendMessage tok userId ⟨content, cid, some true⟩ envS db).2.2
        = (sendMessage tok userId ⟨content, cid, some false⟩ envN db).2.2
  ∧ (sendMessage tok userId ⟨content, cid, some true⟩ envS db).2.2
        = .ok ⟨accS.fullContent, accS.reasoning, ctx.model.modelId, ctx.model.name,
               envS.duration,
               applyUsageFallback tok ctx.allMessages accS.fullContent accS.reasoning
                 accS.usage⟩
  ∧ (∀ (comp : Completion) (acc : StreamAcc),
        runNonStream true (.ok comp) = (acc, none) →
        (acc.fullContent ≠ "" →
            acc.events = [StreamEvent.content acc.fullContent, StreamEvent.done])
        ∧ (acc.fullContent = "" → acc.events = [])) := by
  have hparseS : parseSendMessage ⟨content, cid, some true⟩
      = .ok ⟨jsTrim content, cid, true⟩ := by
    unfold parseSendMessage
    simp only [if_neg hv1, if_neg hv2]
    rfl
  have hparseN : parseSendMessage ⟨content, cid, some false⟩
      = .ok ⟨jsTrim content, cid, false⟩ := by
    unfold parseSendMessage
    simp only [if_neg hv1, if_neg hv2]
    rfl
  have hredS : sendMessage tok userId ⟨content, cid, some true⟩ envS db
      = (if envS.saveFails then addUserMessage db1 ctx.chatId (jsTrim content)
         else finalizeSave (addUserMessage db1 ctx.chatId (jsTrim content)) ctx
           accS.fullContent accS.reasoning
           (applyUsageFallback tok ctx.allMessages accS.fullContent accS.reasoning
             accS.usage) envS.duration,
         accS.events,
         .ok ⟨accS.fullContent, accS.reasoning, ctx.model.modelId, ctx.model.name,
              envS.duration,
              applyUsageFallback tok ctx.allMessages accS.fullContent accS.reasoning
                accS.usage⟩) := by
    unfold sendMessage
    simp only [hparseS, hctx, if_true, hS]
  have hredN : sendMessage tok userId ⟨content, cid, some false⟩ envN db
      = (if envN.saveFails then addUserMessage db1 ctx.chatId (jsTrim content)
         else finalizeSave (addUserMessage db1 ctx.chatId (jsTrim content)) ctx
           accN.fullContent accN.reasoning
           (applyUsageFallback tok ctx.allMessages accN.fullContent accN.reasoning
             accN.usage) envN.duration,
         accN.events,
         .ok ⟨accN.fullContent, accN.reasoning, ctx.model.modelId, ctx.model.name,
              envN.duration,
              applyUsageFallback tok ctx.allMessages accN.fullContent accN.reasoning
                accN.usage⟩) := by
    unfold sendMessage
    simp only [hparseN, hctx, Bool.false_eq_true, if_false, hN]
  refine ⟨?_, ?_, ?_⟩
  · rw [hredS, hredN]
    simp only [hc, hr, hu, hd]
  · rw [hredS]
  · intro comp acc h
    unfold runNonStream at h
    rw [Prod.mk.injEq] at h
    rw [← h.1]
    by_cases hfc : (match comp.choices.head? with
        | some m => m.content.getD ""
        | none => "") = "" <;>
      cases hh : comp.choices.head? <;>
        simp_all

/-- The non-streaming environment of the C2 witness, delivering the same
upstream response ("ok", no reasoning, usage (3,4,7)) as `envOk` does in
streaming form. -/
def envN2 : SendEnv :=
  ⟨⟨[], none⟩, .ok ⟨[⟨some "ok", none⟩], some ⟨3, 4, 7⟩⟩, true, false, false, 5⟩

/-- C2 witness: on `dbFix`, the streamed and buffered deliveries of the
same upstream response yield the same final `AIResponse`. -/
theorem C2_amended_witness :
    ((¬ jsTrim "hello" = "")
     ∧ (¬ 10000 < (jsTrim "hello").length)
     ∧ resolveContext "alice" (jsTrim "hello") (some 0) dbFix
         = (dbFix, .ok ⟨modelFix, 0, [⟨"USER", "hi"⟩, ⟨"user", "hello"⟩]⟩)
     ∧ runStream envOk.hasCallback envOk.streamOutcome
         = (⟨"ok", none, ⟨3, 4, 7⟩, [StreamEvent.content "ok", StreamEvent.done]⟩, none)
     ∧ runNonStream envN2.hasCallback envN2.completionOutcome
         = (⟨"ok", none, ⟨3, 4, 7⟩, [StreamEvent.content "ok", StreamEvent.done]⟩, none))
  ∧ ((sendMessage (fun _ => 0) "alice" ⟨"hello", some 0, some true⟩ envOk dbFix).2.2
        = (sendMessage (fun _ => 0) "alice" ⟨"hello", some 0, some false⟩ envN2 dbFix).2.2
    ∧ (sendMessage (fun _ => 0) "alice" ⟨"hello", some 0, some true⟩ envOk dbFix).2.2
        = .ok ⟨"ok", none, modelFix.modelId, modelFix.name, envOk.duration,
               applyUsageFallback (fun _ => 0) [⟨"USER", "hi"⟩, ⟨"user", "hello"⟩]
                 "ok" none ⟨3, 4, 7⟩⟩
    ∧ (∀ (comp : Completion) (acc : StreamAcc),
          runNonStream true (.ok comp) = (acc, none) →
          (acc.fullContent ≠ "" →
              acc.events = [StreamEvent.content acc.fullContent, StreamEvent.done])
          ∧ (acc.fullContent = "" → acc.events = []))) :=
  ⟨⟨by decide, by decide, by decide, by decide, by decide⟩,
   C2_amended (fun _ => 0) "alice" "hello" (some 0) envOk envN2 dbFix dbFix
     ⟨modelFix, 0, [⟨"USER", "hi"⟩, ⟨"user", "hello"⟩]⟩
     ⟨"ok", none, ⟨3, 4, 7⟩, [StreamEvent.content "ok", StreamEvent.done]⟩
     ⟨"ok", none, ⟨3, 4, 7⟩, [StreamEvent.content "ok", StreamEvent.done]⟩
     (by decide) (by decide) (by decide) (by decide) (by decide)
     (by decide) (by decide) (by decide) (by decide)⟩

/-- C4 (counterexample): the claim "the usage triple is computed locally
if and only if the upstream never reported usage counters (both prompt
and completion counters zero)" is false: the code's guard is
`usage.totalTokens === 0`, so an upstream-reported triple (1, 1, 0) —
non-zero prompt and completion counters — still triggers the local
recomputation, and the result (here (0, 2, 2) with the character-count
tokenizer) discards the reported counters. -/
theorem C4_counterexample :
    (sendMessage String.length "alice" ⟨"hi2", none, some true⟩
        ⟨⟨[⟨some ⟨some "ok", none⟩, some ⟨1, 1, 0⟩⟩], none⟩, .error (.generic "unused"),
         false, false, false, 0⟩ dbEmpty).2.2
      = .ok ⟨"ok", none, "gpt-4o", "m", 0, ⟨0, 2, 2⟩⟩
  ∧ ¬((1 : Nat) = 0 ∧ (1 : Nat) = 0)
  ∧ (⟨0, 2, 2⟩ : Usage) ≠ ⟨1, 1, 0⟩ := by decide

/-- C4 (amended): the local usage fallback in `sendMessage` runs if and
only if the tracked `totalTokens` is zero (the assembled message list is
never empty, since it always ends with the new user turn). When it runs,
prompt tokens are the token count of the locally assembled prompt text,
completion tokens the token count of reply plus reasoning — both with the
same tokenizer — and the total equals prompt plus completion; otherwise
the upstream-reported triple is kept unchanged. -/
theorem C4_amended (tok : String → Nat) (msgs : List OpenAIMsg) (content : String)
    (reasoning : Option String) (u : Usage) (h : msgs ≠ []) :
    (u.totalTokens = 0 →
        applyUsageFallback tok msgs content reasoning u
          = ⟨tok (promptConcat msgs), tok (content ++ reasoning.getD ""),
             tok (promptConcat msgs) + tok (content ++ reasoning.getD "")⟩
      ∧ (applyUsageFallback tok msgs content reasoning u).totalTokens
          = (applyUsageFallback tok msgs content reasoning u).promptTokens
            + (applyUsageFallback tok msgs content reasoning u).completionTokens)
  ∧ (u.totalTokens ≠ 0 → applyUsageFallback tok msgs content reasoning u = u) := by
  have hlen : 0 < msgs.length := List.length_pos.mpr h
  constructor
  · intro h0
    have heq : applyUsageFallback tok msgs content reasoning u
        = ⟨tok (promptConcat msgs), tok (content ++ reasoning.getD ""),
           tok (promptConcat msgs) + tok (content ++ reasoning.getD "")⟩ := by
      unfold applyUsageFallback
      rw [if_pos ⟨h0, hlen⟩]
    exact ⟨heq, by rw [heq]⟩
  · intro h0
    unfold applyUsageFallback
    rw [if_neg (fun hh => h0 hh.1)]

/-- C4 witness: a zero usage triple is recomputed locally with the
character-count tokenizer on a one-turn context. -/
theorem C4_amended_witness :
    (([⟨"user", "hi"⟩] : List OpenAIMsg) ≠ [])
  ∧ (((⟨0, 0, 0⟩ : Usage).totalTokens = 0 →
        applyUsageFallback String.length [⟨"user", "hi"⟩] "ok" none ⟨0, 0, 0⟩
          = ⟨String.length (promptConcat [⟨"user", "hi"⟩]),
             String.length ("ok" ++ (none : Option String).getD ""),
             String.length (promptConcat [⟨"user", "hi"⟩])
               + String.length ("ok" ++ (none : Option String).getD "")⟩
      ∧ (applyUsageFallback String.length [⟨"user", "hi"⟩] "ok" none ⟨0, 0, 0⟩).totalTokens
          = (applyUsageFallback String.length [⟨"user", "hi"⟩] "ok" none
              ⟨0, 0, 0⟩).promptTokens
            + (applyUsageFallback String.length [⟨"user", "hi"⟩] "ok" none
                ⟨0, 0, 0⟩).completionTokens)
    ∧ ((⟨0, 0, 0⟩ : Usage).totalTokens ≠ 0 →
        applyUsageFallback String.length [⟨"user", "hi"⟩] "ok" none ⟨0, 0, 0⟩
          = ⟨0, 0, 0⟩)) :=
  ⟨by decide,
   C4_amended String.length [⟨"user", "hi"⟩] "ok" none ⟨0, 0, 0⟩ (by decide)⟩

/-! ## Auth service (`src/services/authService.ts`) -/

/-- A row of the `User` table, with the columns relevant to login. -/
structure AuthUser where
  id : String
  email : String
  name : Option String
  password : String
  lastLoginAt : Option Nat
  lastLoginIp : Option String
deriving DecidableEq, Repr

/-- The user table. -/
structure AuthDB where
  users : List AuthUser
deriving DecidableEq, Repr

/-- Model of the external `bcrypt.compare`: a stored hash verifies
exactly the password it was derived from. -/
def bcryptCompare (password hash : String) : Bool :=
  decide (hash = "bcrypt$" ++ password)

/-- Model of `jwt.sign(payload, secret, { expiresIn })`: the signed token
records its claims (as key/value pairs), the signing secret and the
validity window. -/
structure SignedToken where
  claims : List (String × Option String)
  secret : String
  expiresIn : String
deriving DecidableEq, Repr

/-- The user object `login` returns (no password field). -/
structure PublicUser where
  id : String
  email : String
  name : Option String
deriving DecidableEq, Repr

/-- A successful login result. -/
structure LoginOk where
  token : SignedToken
  user : PublicUser
deriving DecidableEq, Repr

/-- An authentication failure with its HTTP status. -/
structure AuthErr where
  message : String
  statusCode : Nat
deriving DecidableEq, Repr

/-- `config.jwt.expiresIn` — the fixed 7-day token validity. -/
def jwtExpiresIn : String := "7d"

/-- `login(email, password)` as written in `src/services/authService.ts`:
look the user up by exact email, compare the password against the stored
bcrypt hash, sign a token with payload `{ userId, name }`, and return the
token with the sanitized user object. The user table is returned
alongside to make the function's database effect — none — explicit. -/
def login (db : AuthDB) (jwtSecret : String) (email password : String) :
    AuthDB × Except AuthErr LoginOk :=
  match db.users.find? (fun u => decide (u.email = email)) with
  | none => (db, .error ⟨"用户不存在", 401⟩)
  | some user =>
      if bcryptCompare password user.password then
        (db, .ok ⟨⟨[("userId", some user.id), ("name", user.name)], jwtSecret,
                   jwtExpiresIn⟩,
                  ⟨user.id, user.email, user.name⟩⟩)
      else (db, .error ⟨"密码错误", 401⟩)

/-- C8: evaluation of `login` at a successful concrete login. The token
is signed with the shared secret, has the fixed "7d" validity, and the
returned user object is `{id, email, name}` without the password hash —
but the signed payload is `{userId, name}` with NO email claim, and the
user table is returned untouched: no last-login timestamp or IP is
written. This contradicts the claim (and the repository's own
`JWTPayload` type, whose `email` field the auth middleware reads, and the
auth controller, which passes the client IP to `login`). -/
theorem C8_login_eval :
    (login ⟨[⟨"u1", "a@x.com", some "Ann", "bcrypt$pw", none, none⟩]⟩ "secret"
        "a@x.com" "pw")
      = (⟨[⟨"u1", "a@x.com", some "Ann", "bcrypt$pw", none, none⟩]⟩,
         .ok ⟨⟨[("userId", some "u1"), ("name", some "Ann")], "secret", "7d"⟩,
              ⟨"u1", "a@x.com", some "Ann"⟩⟩)
  ∧ (([("userId", some "u1"), ("name", some "Ann")] :
        List (String × Option String)).all (fun kv => decide (kv.1 ≠ "email")) = true)
  ∧ jwtExpiresIn = "7d"
  ∧ (([some "u1", some "Ann"] : List (Option String)).all
        (fun v => decide (v ≠ some "bcrypt$pw")) = true) := by decide

/-! ## Tiktoken wrapper (`countTokens` and its encoder cache) -/

/-- An encoder as the wrapper uses it: `encode` mapping text to a token
list. -/
abbrev Enc := String → List Nat

/-- `getEncoder`: return the cached encoder if present, otherwise build
one via the external library (modelled as `lib`; `none` models
`encoding_for_model` throwing) and cache it. -/
def getEncoder (lib cache : Option Enc) : Option (Enc × Option Enc) :=
  match cache with
  | some e => some (e, some e)
  | none =>
      match lib with
      | some e => some (e, some e)
      | none => none

/-- `countTokens(text)`: `getEncoder().encode(text).length`, with the
catch block returning 0 when the encoder cannot be built; the returned
cache is the only process state the function touches. -/
def countTokens (lib cache : Option Enc) (text : String) : Nat × Option Enc :=
  match getEncoder lib cache with
  | some (e, cache') => ((e text).length, cache')
  | none => (0, cache)

/-- A cache state is valid for a library when anything cached was built
by that library — every reachable cache state satisfies this. -/
def CacheValid (lib cache : Option Enc) : Prop :=
  ∀ e, cache = some e → lib = some e

theorem countTokens_cache_irrelevant (lib : Option Enc) (text : String)
    (c : Option Enc) (hc : CacheValid lib c) :
    (countTokens lib c text).1 = (countTokens lib none text).1 := by
  cases c with
  | none => rfl
  | some e =>
      have hl : lib = some e := hc e rfl
      subst hl
      rfl

/-- C9: `countTokens` is deterministic — for the same encoding library,
the result depends only on the text, not on the cache state (so repeated
in-process calls and fresh-process calls with an empty cache agree); the
only state change is building the lazily cached encoder, which is then
reused: the returned cache is the old one or the freshly built encoder,
it stays valid, and a second call on it returns the same count. -/
theorem C9_countTokens_deterministic (lib c1 c2 : Option Enc) (text : String)
    (h1 : CacheValid lib c1) (h2 : CacheValid lib c2) :
    (countTokens lib c1 text).1 = (countTokens lib c2 text).1
  ∧ (countTokens lib c1 text).2 = (match c1 with | some e => some e | none => lib)
  ∧ CacheValid lib (countTokens lib c1 text).2
  ∧ (countTokens lib (countTokens lib c1 text).2 text).1
      = (countTokens lib c1 text).1 := by
  have hvalid : CacheValid lib (countTokens lib c1 text).2 := by
    intro e' he'
    cases c1 with
    | some e =>
        have hl : lib = some e := h1 e rfl
        subst hl
        simp [countTokens, getEncoder] at he'
        rw [he']
    | none =>
        cases lib with
        | some e =>
            simp [countTokens, getEncoder] at he'
            rw [he']
        | none => simp [countTokens, getEncoder] at he'
  refine ⟨?_, ?_, hvalid, ?_⟩
  · rw [countTokens_cache_irrelevant lib text c1 h1,
      countTokens_cache_irrelevant lib text c2 h2]
  · cases c1 with
    | some e => rfl
    | none => cases lib <;> rfl
  · rw [countTokens_cache_irrelevant lib text _ hvalid,
      countTokens_cache_irrelevant lib text c1 h1]

/-- C9 witness: the character-code encoder, a fresh cache on both sides
(the cross-process case), on the text "ab". -/
theorem C9_countTokens_deterministic_witness :
    (CacheValid (some (fun s => s.data.map Char.toNat)) none
     ∧ CacheValid (some (fun s => s.data.map Char.toNat)) none)
  ∧ ((countTokens (some (fun s => s.data.map Char.toNat)) none "ab").1
        = (countTokens (some (fun s => s.data.map Char.toNat)) none "ab").1
    ∧ (countTokens (some (fun s => s.data.map Char.toNat)) none "ab").2
        = some (fun s => s.data.map Char.toNat)
    ∧ CacheValid (some (fun s => s.data.map Char.toNat))
        (countTokens (some (fun s => s.data.map Char.toNat)) none "ab").2
    ∧ (countTokens (some (fun s => s.data.map Char.toNat))
          (countTokens (some (fun s => s.data.map Char.toNat)) none "ab").2 "ab").1
        = (countTokens (some (fun s => s.data.map Char.toNat)) none "ab").1) :=
  ⟨⟨(fun _ h => nomatch h), (fun _ h => nomatch h)⟩,
   C9_countTokens_deterministic (some (fun s => s.data.map Char.toNat)) none none "ab"
     (fun _ h => nomatch h) (fun _ h => nomatch h)⟩

end LinkAI
